import Mathlib

/-!
Shallow embedding of the Conducttr Eagle publisher (`streamlit_app.py`).

Pure helpers (`clean_team_name`, the body-wrapping expression), the
publish call (`publish_to_team`) and the publish loop are translated
directly from the source; network effects are passed in as explicit
function parameters, and Python exceptions become `Except` values.
Strings are handled through their underlying `List Char` (Python `str`
slicing and membership are per code point, as is `String.data`).
-/

namespace Eagle

/-- Whitespace test used by Python `str.strip` (ASCII subset, which is
all the app's data uses). -/
def isWs (c : Char) : Bool :=
  c = ' ' || c = '\t' || c = '\n' || c = '\r'

/-- Python `str.strip`: drop whitespace from both ends. -/
def trimChars (l : List Char) : List Char :=
  ((((l.dropWhile isWs).reverse).dropWhile isWs)).reverse

/-- The regex `^[A-Z] - `: if the list starts with an ASCII uppercase
letter followed by `" - "`, drop that four-character head
(`re.sub(r"^[A-Z] - ", "", name)` in `clean_team_name`). -/
def stripLetterDash : List Char → List Char
  | c :: ' ' :: '-' :: ' ' :: rest =>
      if c.isUpper then rest else c :: ' ' :: '-' :: ' ' :: rest
  | l => l

/-- Does the date regex match at the head of the list: a space, a dash,
a space, four digits, a separator (slash or dash), two digits, the same
kind of separator, two digits?  (The `.*$` tail of the source pattern
consumes the rest.) -/
def dateSuffixAt : List Char → Bool
  | ' ' :: '-' :: ' ' :: y1 :: y2 :: y3 :: y4 :: s1 :: m1 :: m2 :: s2 :: d1 :: d2 :: _ =>
      y1.isDigit && y2.isDigit && y3.isDigit && y4.isDigit &&
      (s1 = '/' || s1 = '-') && m1.isDigit && m2.isDigit &&
      (s2 = '/' || s2 = '-') && d1.isDigit && d2.isDigit
  | _ => false

/-- The second `re.sub` of `clean_team_name`: truncate at the leftmost
occurrence of the date pattern (the match runs to the end of the
string, so everything from there on is removed). -/
def stripDateSuffix : List Char → List Char
  | [] => []
  | c :: rest =>
      if dateSuffixAt (c :: rest) then [] else c :: stripDateSuffix rest

/-- `clean_team_name` (source lines 33-42). -/
def clean_team_name (raw_name : String) : String :=
  if "S - ".data.isPrefixOf raw_name.data then "Session"
  else if "M - ".data.isPrefixOf raw_name.data then "Moderators"
  else String.mk (trimChars (stripDateSuffix (stripLetterDash raw_name.data)))

/-- The body-wrapping expression (source line 200):
`body_raw.strip() if "<" in body_raw else f"<p>{body_raw.strip()}</p>"`. -/
def wrapBody (body_raw : String) : String :=
  if body_raw.data.contains '<' then String.mk (trimChars body_raw.data)
  else String.mk (("<p>".data ++ trimChars body_raw.data) ++ "</p>".data)

/-- No `clean_team_name` rewrite pattern applies to `s`: it has neither
of the two fixed prefixes, the `^[A-Z] - ` strip is the identity on it,
and the date-suffix strip is the identity on it. -/
def cleanPatternFree (s : String) : Prop :=
  ¬ "S - ".data.isPrefixOf s.data ∧ ¬ "M - ".data.isPrefixOf s.data ∧
  stripLetterDash s.data = s.data ∧ stripDateSuffix s.data = s.data

instance (s : String) : Decidable (cleanPatternFree s) := by
  unfold cleanPatternFree; infer_instance

end Eagle


namespace Eagle

/-- Outcome of one HTTP POST as the `requests` library surfaces it to
`publish_to_team`: either a response object (status code and decoded
body text) or a raised `requests.RequestException` with a message. -/
inductive HttpOutcome where
  | response (status : Nat) (body : String)
  | transportError (msg : String)

/-- `res.ok` of the `requests` library: `raise_for_status` raises
exactly for status codes 400-599, and `ok` is `True` iff it does not
raise. -/
def resOk (status : Nat) : Bool :=
  if 400 ≤ status ∧ status < 600 then false else true

/-- Python slice `text[:300]` (per code point). -/
def take300 (s : String) : String :=
  String.mk (s.data.take 300)

/-- The result dict built by `publish_to_team`: `ok`, `status`, and the
`error` key (absent on success, modelled as `none`). -/
structure PublishResult where
  ok : Bool
  status : Nat
  error : Option String
deriving Repr, DecidableEq

/-- The JSON payload built per team in the publish loop
(source lines 253-264). -/
structure Payload where
  persona : String
  channel : String
  title : String
  subtitle : String
  body : String
  assets : List String
  sentiment : String
  team_id : Nat
  type : String
  isDraft : Nat
deriving Repr, DecidableEq

/-- The `article` dict assembled at source lines 239-245. -/
structure Article where
  title : String
  subtitle : String
  body : String
  sentiment : String
  is_draft : Nat
deriving Repr, DecidableEq

/-- `publish_to_team` (source lines 81-89).  The network is an explicit
parameter `net` mapping the key and payload of the POST to its
`HttpOutcome`; the `try`/`except requests.RequestException` block
becomes the `transportError` branch.  The function is total: every
outcome yields a normal `PublishResult`. -/
def publish_to_team (net : String → Payload → HttpOutcome)
    (api_key : String) (payload : Payload) : PublishResult :=
  match net api_key payload with
  | .response s body =>
      if resOk s then { ok := true, status := s, error := none }
      else { ok := false, status := s, error := some (take300 body) }
  | .transportError m => { ok := false, status := 0, error := some m }

/-- One entry of the `results` list: `{"team_id": team_id, **result}`
(source line 266). -/
structure TaggedResult where
  team_id : Nat
  ok : Bool
  status : Nat
  error : Option String
deriving Repr, DecidableEq

def tagResult (team_id : Nat) (r : PublishResult) : TaggedResult :=
  { team_id := team_id, ok := r.ok, status := r.status, error := r.error }

/-- The per-team payload (source lines 253-264). -/
def mkPayload (article : Article) (persona_hash : String) (team_id : Nat) : Payload :=
  { persona := persona_hash, channel := "websites", title := article.title,
    subtitle := article.subtitle, body := article.body, assets := [],
    sentiment := article.sentiment, team_id := team_id, type := "team",
    isDraft := article.is_draft }

/-- The publish loop (source lines 249-269): one `publish_to_team` call
per team id, in order, each result appended tagged with its team id.
The progress bar and the fixed `time.sleep(0.5)` pacing between calls
have no effect on the collected results and are omitted. -/
def publishToTeams (net : String → Payload → HttpOutcome) (api_key : String)
    (article : Article) (persona_hash : String) (team_ids : List Nat) :
    List TaggedResult :=
  team_ids.map (fun tid =>
    tagResult tid (publish_to_team net api_key (mkPayload article persona_hash tid)))

/-- Fixture: a network on which every POST fails at transport level. -/
def netDown : String → Payload → HttpOutcome :=
  fun _ _ => .transportError "connection reset"

/-- Fixture: a network on which every POST gets an HTTP 500. -/
def netHttp500 : String → Payload → HttpOutcome :=
  fun _ _ => .response 500 "oops"

/-- Fixture article. -/
def article₀ : Article :=
  { title := "Hi", subtitle := "", body := "<p>Hello</p>",
    sentiment := "neutral", is_draft := 0 }

/-- Fixture payload. -/
def payload₀ : Payload := mkPayload article₀ "hash" 1

/-- Parsed JSON values, as handled by `json.loads` and the
`isinstance` tests in `fetch_personas` and the orgs filter. -/
inductive JValue where
  | null
  | bool (b : Bool)
  | num (n : Int)
  | str (s : String)
  | arr (xs : List JValue)
  | obj (fields : List (String × JValue))

/-- Python truthiness of a JSON value (`None`, `False`, `0`, `""`,
`[]`, and `{}` are falsy). -/
def truthy : JValue → Bool
  | .null => false
  | .bool b => b
  | .num n => if n = 0 then false else true
  | .str s => if s.data = [] then false else true
  | .arr [] => false
  | .arr (_ :: _) => true
  | .obj [] => false
  | .obj (_ :: _) => true

/-- Is the value a JSON list (`isinstance(value, list)`)? -/
def isArr : JValue → Bool
  | .arr _ => true
  | _ => false

/-- Python `dict` key lookup on the field list (keys are unique in a
parsed JSON object, so first match suffices). -/
def jlookup : List (String × JValue) → String → Option JValue
  | [], _ => none
  | (k, v) :: rest, key => if k = key then some v else jlookup rest key

/-- The loop `for value in data.values(): if isinstance(value, list):
return value` with the trailing `return []` (source lines 63-67). -/
def firstListValue : List (String × JValue) → List JValue
  | [] => []
  | (_, JValue.arr xs) :: _ => xs
  | _ :: rest => firstListValue rest

/-- The payload-shape fallback of `fetch_personas` (source lines
61-67), applied to the JSON value parsed out of the archive. -/
def extract_list (data : JValue) : List JValue :=
  match data with
  | .arr xs => xs
  | .obj fields => firstListValue fields
  | _ => []

/-- `p.get("system_info", {}).get("is_organisation")` evaluated to its
truthiness, as the orgs filter does (source line 114).  Python raises
`AttributeError` when `p` is not a dict, or when its `system_info`
entry is present but is not a dict (only dicts have `.get`); both
become `.error`. -/
def get_is_organisation (p : JValue) : Except String Bool :=
  match p with
  | .obj fields =>
      match (jlookup fields "system_info").getD (.obj []) with
      | .obj sfields =>
          .ok (truthy ((jlookup sfields "is_organisation").getD .null))
      | _ => .error "AttributeError"
  | _ => .error "AttributeError"

/-- The orgs filter
`[p for p in personas_raw if p.get("system_info", {}).get("is_organisation")]`
(source line 114); the first raised `AttributeError` aborts the
comprehension. -/
def orgsFilter : List JValue → Except String (List JValue)
  | [] => .ok []
  | p :: rest =>
      match get_is_organisation p with
      | .error e => .error e
      | .ok b =>
          match orgsFilter rest with
          | .error e => .error e
          | .ok l => .ok (if b then p :: l else l)

/-- `chosen_persona["system_info"]["hash"]` (source line 246): plain
indexing, which raises `KeyError` on a missing key and `TypeError` when
the indexed value is not a dict. -/
def persona_hash_of (p : JValue) : Except String JValue :=
  match p with
  | .obj fields =>
      match jlookup fields "system_info" with
      | some (.obj sfields) =>
          match jlookup sfields "hash" with
          | some v => .ok v
          | none => .error "KeyError"
      | some _ => .error "TypeError"
      | none => .error "KeyError"
  | _ => .error "TypeError"

/-- A team record as mapped by `fetch_teams` (source line 78). -/
structure Team where
  team_id : Nat
  name : String
deriving Repr, DecidableEq

/-- An exception escaping `fetch_personas` or `fetch_teams`:
`requests.HTTPError` from `raise_for_status`, or any other exception
(transport errors, archive errors, the filter's `AttributeError`). -/
inductive ApiError where
  | http (status : Nat)
  | exc (msg : String)
deriving Repr, DecidableEq

/-- The three `st.session_state` keys the connect handler writes
(source lines 115-117); `none` = key absent. -/
structure Session where
  api_key : Option String
  orgs : Option (List JValue)
  teams : Option (List Team)

/-- The message the connect handler surfaces (source lines 108,
118-123). -/
inductive ConnectMsg where
  | errorEmptyKey
  | errorHttp (status : Nat)
  | errorOther (msg : String)
  | success (nOrgs nTeams : Nat)
deriving Repr, DecidableEq

/-- The Connect button handler (source lines 106-123).  The two fetches
are explicit fallible parameters; the `try` block runs both fetches and
the orgs filter, and only on full success writes the three session
keys.  Every `except` branch surfaces a message and leaves the session
untouched. -/
def connectAction (fetchP : String → Except ApiError (List JValue))
    (fetchT : String → Except ApiError (List Team))
    (sess : Session) (api_key_input : String) : Session × ConnectMsg :=
  let key := String.mk (trimChars api_key_input.data)
  if key.data = [] then (sess, .errorEmptyKey)
  else
    match fetchP key with
    | .error (.http s) => (sess, .errorHttp s)
    | .error (.exc m) => (sess, .errorOther m)
    | .ok personas_raw =>
        match fetchT key with
        | .error (.http s) => (sess, .errorHttp s)
        | .error (.exc m) => (sess, .errorOther m)
        | .ok teams_raw =>
            match orgsFilter personas_raw with
            | .error m => (sess, .errorOther m)
            | .ok orgs =>
                ({ api_key := some key, orgs := some orgs,
                   teams := some teams_raw },
                 .success orgs.length teams_raw.length)

/-- Modelled from the spec: the reference-data cache entry
`{personas, teams, fetchedAt}` keyed by credential.  The cache
machinery itself lives in the framework decorator
`@st.cache_data(ttl=300)`, not in the repository source; only the TTL
constant and the explicit `.clear()` invalidation appear in the source.  -/
structure RefEntry (α β : Type) where
  key : String
  personas : α
  teams : β
  fetchedAt : Nat
deriving Repr, DecidableEq

/-- The TTL passed to `st.cache_data` (source lines 46 and 70). -/
def cacheTTL : Nat := 300

/-- Modelled from the spec: the reference-data accessor
`getPersonasAndTeams(credential, forceRefresh)`.  Returns the data, the
new cache state, and whether an underlying fetch pair
(`fetchPersonas` + `fetchTeams`) was performed.  A fresh entry (same
credential, age at most the TTL, no forced refresh) is returned as is;
otherwise both fetches run and the entry is replaced with a new
timestamp.  Explicit invalidation is modelled as setting the entry to
`none`. -/
def getPersonasAndTeams {α β : Type} (fetchP : String → α) (fetchT : String → β)
    (entry : Option (RefEntry α β)) (key : String) (now : Nat)
    (forceRefresh : Bool) : (α × β) × Option (RefEntry α β) × Bool :=
  match entry with
  | some e =>
      if forceRefresh = false ∧ e.key = key ∧ now - e.fetchedAt ≤ cacheTTL then
        ((e.personas, e.teams), some e, false)
      else
        ((fetchP key, fetchT key),
         some { key := key, personas := fetchP key, teams := fetchT key,
                fetchedAt := now }, true)
  | none =>
      ((fetchP key, fetchT key),
       some { key := key, personas := fetchP key, teams := fetchT key,
              fetchedAt := now }, true)

/-- Fixture persona: an organisation flagged with the truthy number `1`
and no `hash` key. -/
def personaNoHash : JValue :=
  .obj [("system_info", .obj [("is_organisation", .num 1)])]

/-- Fixture persona record whose `system_info` is not a dict. -/
def personaBadSystemInfo : JValue := .obj [("system_info", .num 42)]

/-- Fixture fetch that raises an HTTP 401. -/
def fetchPFail : String → Except ApiError (List JValue) :=
  fun _ => .error (.http 401)

/-- Fixture persona fetch that succeeds. -/
def fetchPOk : String → Except ApiError (List JValue) :=
  fun _ => .ok [personaNoHash]

/-- Fixture team fetch that raises a non-HTTP exception. -/
def fetchTFail : String → Except ApiError (List Team) :=
  fun _ => .error (.exc "boom")

/-- Fixture empty session. -/
def sess₀ : Session := { api_key := none, orgs := none, teams := none }

end Eagle

namespace Eagle

theorem dropWhile_idem (p : α → Bool) (l : List α) :
    (l.dropWhile p).dropWhile p = l.dropWhile p := by
  induction l with
  | nil => rfl
  | cons a t ih =>
    by_cases h : p a <;> simp [List.dropWhile_cons, h, ih]

theorem dropWhile_append_self (p : α → Bool) (l₁ l₂ : List α)
    (h : List.dropWhile p (l₁ ++ l₂) = l₁ ++ l₂) :
    List.dropWhile p l₁ = l₁ := by
  cases l₁ with
  | nil => rfl
  | cons a t =>
    have ha : ¬ p a := by
      have hh := (List.dropWhile_eq_self_iff).mp h
      simpa using hh (by simp)
    simp [List.dropWhile_cons, ha]

theorem trimChars_idem (l : List Char) :
    trimChars (trimChars l) = trimChars l := by
  unfold trimChars
  set u := l.dropWhile isWs with hu
  have hfirst : List.dropWhile isWs u = u := by
    rw [hu]; exact dropWhile_idem isWs l
  set w := u.reverse.dropWhile isWs with hw
  have hsplit : u.reverse.takeWhile isWs ++ w = u.reverse := by
    rw [hw]; exact List.takeWhile_append_dropWhile isWs u.reverse
  have hudecomp : u = w.reverse ++ (u.reverse.takeWhile isWs).reverse := by
    have := congrArg List.reverse hsplit
    simpa [List.reverse_append] using this.symm
  have hwrev : List.dropWhile isWs w.reverse = w.reverse := by
    apply dropWhile_append_self isWs w.reverse ((u.reverse.takeWhile isWs).reverse)
    rw [← hudecomp]; exact hfirst
  rw [hwrev]
  have hsecond : List.dropWhile isWs w.reverse.reverse = w.reverse.reverse := by
    simpa using dropWhile_idem isWs u.reverse
  rw [hsecond]
  simp

/-- Every output of `clean_team_name` is already stripped. -/
theorem clean_team_name_trimmed (x : String) :
    trimChars (clean_team_name x).data = (clean_team_name x).data := by
  unfold clean_team_name
  by_cases h1 : "S - ".data.isPrefixOf x.data
  · simp [h1]; decide
  · by_cases h2 : "M - ".data.isPrefixOf x.data
    · simp [h1, h2]; decide
    · simp [h1, h2]
      exact trimChars_idem _

end Eagle

namespace Eagle

/-- C1: for every non-empty list of team ids of length N, the publish
loop returns exactly N tagged results, in input order, the i-th tagged
with the i-th team id and holding the result of that team's own publish
attempt — for every network behaviour `net`, including ones on which
some or all publishes fail, so one team's failure never prevents the
attempts for the other teams. -/
theorem publish_batch_complete (net : String → Payload → HttpOutcome)
    (api_key : String) (article : Article) (persona_hash : String)
    (team_ids : List Nat) (hne : team_ids ≠ []) :
    (publishToTeams net api_key article persona_hash team_ids).length =
      team_ids.length ∧
    ∀ i : Nat, (publishToTeams net api_key article persona_hash team_ids)[i]? =
      (team_ids[i]?).map (fun tid =>
        tagResult tid (publish_to_team net api_key (mkPayload article persona_hash tid))) := by
  refine ⟨by simp [publishToTeams], fun i => ?_⟩
  simp [publishToTeams]

/-- C1 witness: a two-team batch on an all-failing network still yields
both tagged results in order. -/
theorem publish_batch_complete_witness :
    ([1, 2] : List Nat) ≠ [] ∧
    (publishToTeams netDown "k" article₀ "hash" [1, 2]).length =
      ([1, 2] : List Nat).length ∧
    ∀ i : Nat, (publishToTeams netDown "k" article₀ "hash" [1, 2])[i]? =
      (([1, 2] : List Nat)[i]?).map (fun tid =>
        tagResult tid (publish_to_team netDown "k" (mkPayload article₀ "hash" tid))) := by
  have h := publish_batch_complete netDown "k" article₀ "hash" [1, 2] (by decide)
  exact ⟨by decide, h.1, h.2⟩

/-- C2 counterexample: a 304 response is not a 2xx response, yet
`publish_to_team` returns it as `ok = true` (the source tests `res.ok`,
which only fails for the 400-599 range). -/
theorem publish_non2xx_ok_counterexample :
    publish_to_team (fun _ _ => .response 304 "not modified") "k" payload₀ =
      { ok := true, status := 304, error := none } ∧
    ¬ (200 ≤ 304 ∧ 304 < 300) := by
  exact ⟨by decide, by decide⟩

/-- C2 (amended): `publish_to_team` never throws — every outcome yields
a normal `PublishResult`.  A response with status 400-599 yields
`ok = false` with the status code and at most 300 characters of the
body as the error detail; a transport failure yields `ok = false`,
status 0, and the exception message; a response with any other status
(all 2xx, but also e.g. 3xx) yields `ok = true` with no error. -/
theorem publish_never_throws (net : String → Payload → HttpOutcome)
    (api_key : String) (payload : Payload) :
    (∀ s body, net api_key payload = .response s body →
      ((400 ≤ s ∧ s < 600) →
        publish_to_team net api_key payload =
          { ok := false, status := s, error := some (take300 body) } ∧
        (take300 body).data.length ≤ 300) ∧
      (¬ (400 ≤ s ∧ s < 600) →
        publish_to_team net api_key payload =
          { ok := true, status := s, error := none })) ∧
    (∀ m, net api_key payload = .transportError m →
      publish_to_team net api_key payload =
        { ok := false, status := 0, error := some m }) := by
  refine ⟨fun s body hnet => ⟨fun hs => ⟨?_, ?_⟩, fun hs => ?_⟩, fun m hnet => ?_⟩
  · simp [publish_to_team, hnet, resOk, hs]
  · simp [take300, List.length_take]
  · simp [publish_to_team, hnet, resOk, hs]
  · simp [publish_to_team, hnet]

/-- C2 witness: an HTTP 500 with body `"oops"` is returned as a failed
result, not an exception. -/
theorem publish_never_throws_witness :
    netHttp500 "k" payload₀ = .response 500 "oops" ∧ (400 ≤ 500 ∧ 500 < 600) ∧
    publish_to_team netHttp500 "k" payload₀ =
      { ok := false, status := 500, error := some (take300 "oops") } := by
  have h := ((publish_never_throws netHttp500 "k" payload₀).1 500 "oops" rfl).1
    (by decide)
  exact ⟨rfl, by decide, h.1⟩

/-- C4: the five specified values of the team-name normalizer. -/
theorem clean_team_name_values :
    clean_team_name "S - Anything" = "Session" ∧
    clean_team_name "M - X" = "Moderators" ∧
    clean_team_name "T - Newsroom - 2024/01/05 extra" = "Newsroom" ∧
    clean_team_name "T - Newsroom - 2024-01-05" = "Newsroom" ∧
    clean_team_name "X - NoDate" = "NoDate" :=
  ⟨by decide, by decide, by decide, by decide, by decide⟩

/-- C5 counterexample: normalizing `"T - S - Hello"` yields
`"S - Hello"`, and normalizing that again yields `"Session"`, so the
normalizer is not idempotent on every raw name. -/
theorem clean_team_name_not_idempotent :
    clean_team_name "T - S - Hello" = "S - Hello" ∧
    clean_team_name (clean_team_name "T - S - Hello") = "Session" ∧
    clean_team_name (clean_team_name "T - S - Hello") ≠
      clean_team_name "T - S - Hello" :=
  ⟨by decide, by decide, by decide⟩

/-- If no rewrite pattern applies to `y` and `y` is already stripped,
the normalizer leaves `y` unchanged. -/
theorem clean_fixed_of_pattern_free (y : String) (h : cleanPatternFree y)
    (htrim : trimChars y.data = y.data) : clean_team_name y = y := by
  obtain ⟨h1, h2, h3, h4⟩ := h
  unfold clean_team_name
  rw [if_neg h1, if_neg h2, h3, h4, htrim]

/-- C5 (amended): a second application of the normalizer is a no-op on
every raw name whose normalized form matches none of the rewrite
patterns (the spec's proviso "since the pattern no longer matches"). -/
theorem clean_team_name_idem (x : String)
    (h : cleanPatternFree (clean_team_name x)) :
    clean_team_name (clean_team_name x) = clean_team_name x :=
  clean_fixed_of_pattern_free _ h (clean_team_name_trimmed x)

/-- C5 witness: `"T - Newsroom - 2024-01-05"` normalizes to
`"Newsroom"`, which no pattern matches, so a second pass is a no-op. -/
theorem clean_team_name_idem_witness :
    cleanPatternFree (clean_team_name "T - Newsroom - 2024-01-05") ∧
    clean_team_name (clean_team_name "T - Newsroom - 2024-01-05") =
      clean_team_name "T - Newsroom - 2024-01-05" :=
  ⟨by decide, clean_team_name_idem "T - Newsroom - 2024-01-05" (by decide)⟩

/-- C6: the published body is wrapped as a single paragraph exactly
when it contains no `<` character (how the source and the spec's
examples detect markup): a `<`-free body becomes `<p>…</p>` around its
stripped text, a body containing `<` is passed through stripping only,
and the two specified examples hold. -/
theorem body_autowrap (s : String) :
    (s.data.contains '<' = false →
      wrapBody s = String.mk (("<p>".data ++ trimChars s.data) ++ "</p>".data)) ∧
    (s.data.contains '<' = true → wrapBody s = String.mk (trimChars s.data)) ∧
    wrapBody "Hello" = "<p>Hello</p>" ∧
    wrapBody "<p>Hi</p>" = "<p>Hi</p>" := by
  refine ⟨fun h => ?_, fun h => ?_, by decide, by decide⟩
  · simp only [wrapBody]
    rw [if_neg (by rw [h]; simp)]
  · simp only [wrapBody]
    rw [if_pos h]

/-- C6 witness: a plain-text body is wrapped. -/
theorem body_autowrap_witness :
    "Hi there".data.contains '<' = false ∧
    wrapBody "Hi there" =
      String.mk (("<p>".data ++ trimChars "Hi there".data) ++ "</p>".data) :=
  ⟨by decide, (body_autowrap "Hi there").1 (by decide)⟩

/-- C7: the payload-shape fallback of `fetch_personas`: a top-level
list is returned as is; in a mapping, the first list-valued entry (in
insertion order) is returned; a mapping without list-valued entries,
and every non-list non-mapping payload, yields the empty list rather
than a failure. -/
theorem fetch_personas_shape_fallback :
    (∀ xs, extract_list (.arr xs) = xs) ∧
    (∀ pre k xs post, (∀ e ∈ pre, isArr e.2 = false) →
      extract_list (.obj (pre ++ (k, JValue.arr xs) :: post)) = xs) ∧
    (∀ fields, (∀ e ∈ fields, isArr e.2 = false) →
      extract_list (.obj fields) = []) ∧
    extract_list .null = [] ∧ (∀ b, extract_list (.bool b) = []) ∧
    (∀ n, extract_list (.num n) = []) ∧
    (∀ s, extract_list (.str s) = []) := by
  refine ⟨fun xs => rfl, fun pre k xs post h => ?_, fun fields h => ?_,
    rfl, fun b => rfl, fun n => rfl, fun s => rfl⟩
  · induction pre with
    | nil => rfl
    | cons e rest ih =>
      obtain ⟨k', v⟩ := e
      have hv := h (k', v) (List.mem_cons_self _ _)
      have ihr := ih fun e he => h e (List.mem_cons_of_mem _ he)
      cases v with
      | arr ys => simp [isArr] at hv
      | null => simpa [extract_list, firstListValue, List.cons_append] using ihr
      | bool b => simpa [extract_list, firstListValue, List.cons_append] using ihr
      | num n => simpa [extract_list, firstListValue, List.cons_append] using ihr
      | str s => simpa [extract_list, firstListValue, List.cons_append] using ihr
      | obj fs => simpa [extract_list, firstListValue, List.cons_append] using ihr
  · induction fields with
    | nil => rfl
    | cons e rest ih =>
      obtain ⟨k', v⟩ := e
      have hv := h (k', v) (List.mem_cons_self _ _)
      have ihr := ih fun e he => h e (List.mem_cons_of_mem _ he)
      cases v with
      | arr ys => simp [isArr] at hv
      | null => simpa [extract_list, firstListValue] using ihr
      | bool b => simpa [extract_list, firstListValue] using ihr
      | num n => simpa [extract_list, firstListValue] using ihr
      | str s => simpa [extract_list, firstListValue] using ihr
      | obj fs => simpa [extract_list, firstListValue] using ihr

/-- C7 witness: a mapping whose first entry is a count and whose second
entry is the persona list yields that list. -/
theorem fetch_personas_shape_fallback_witness :
    (∀ e ∈ [("count", JValue.num 2)], isArr e.2 = false) ∧
    extract_list (.obj ([("count", JValue.num 2)] ++
      ("items", JValue.arr [JValue.str "p"]) :: [])) = [JValue.str "p"] :=
  ⟨by decide, fetch_personas_shape_fallback.2.1 [("count", JValue.num 2)]
    "items" [JValue.str "p"] [] (by decide)⟩

/-- C8: if either reference-data fetch of the connect action fails
(HTTP error or any other exception), the session state is returned
unchanged — no credential, persona list, or team list is written. -/
theorem connect_error_preserves_session
    (fetchP : String → Except ApiError (List JValue))
    (fetchT : String → Except ApiError (List Team))
    (sess : Session) (input : String) :
    (∀ e, fetchP (String.mk (trimChars input.data)) = .error e →
      (connectAction fetchP fetchT sess input).1 = sess) ∧
    (∀ ps e, fetchP (String.mk (trimChars input.data)) = .ok ps →
      fetchT (String.mk (trimChars input.data)) = .error e →
      (connectAction fetchP fetchT sess input).1 = sess) := by
  constructor
  · intro e he
    cases e with
    | http s =>
      simp only [connectAction]
      rw [he]
      split <;> rfl
    | exc m =>
      simp only [connectAction]
      rw [he]
      split <;> rfl
  · intro ps e hp ht
    cases e with
    | http s =>
      simp only [connectAction]
      rw [hp, ht]
      split <;> rfl
    | exc m =>
      simp only [connectAction]
      rw [hp, ht]
      split <;> rfl

/-- C8 witness: a 401 on the persona fetch leaves the empty session
untouched. -/
theorem connect_error_preserves_session_witness :
    fetchPFail (String.mk (trimChars "abc".data)) = .error (.http 401) ∧
    (connectAction fetchPFail fetchTFail sess₀ "abc").1 = sess₀ :=
  ⟨rfl, (connect_error_preserves_session fetchPFail fetchTFail sess₀ "abc").1
    (.http 401) rfl⟩

/-- Membership in a successful run of the orgs filter is exactly
membership in the input with a truthy `is_organisation`. -/
theorem orgsFilter_mem_iff (ps res : List JValue) (h : orgsFilter ps = .ok res)
    (p : JValue) : p ∈ res ↔ p ∈ ps ∧ get_is_organisation p = .ok true := by
  induction ps generalizing res with
  | nil =>
    simp only [orgsFilter] at h
    injection h with h
    subst h
    simp
  | cons q rest ih =>
    simp only [orgsFilter] at h
    cases hq : get_is_organisation q with
    | error e => rw [hq] at h; nomatch h
    | ok b =>
      rw [hq] at h
      cases hr : orgsFilter rest with
      | error e => rw [hr] at h; nomatch h
      | ok l =>
        rw [hr] at h
        injection h with h
        subst h
        cases b with
        | true =>
          constructor
          · intro hmem
            rcases List.mem_cons.mp (by simpa using hmem) with rfl | hl
            · exact ⟨List.mem_cons_self _ _, hq⟩
            · have hhl := (ih l hr).mp hl
              exact ⟨List.mem_cons_of_mem _ hhl.1, hhl.2⟩
          · rintro ⟨hmem, hok⟩
            rcases List.mem_cons.mp hmem with rfl | hpr
            · simpa using List.mem_cons_self p l
            · simpa using List.mem_cons_of_mem q ((ih l hr).mpr ⟨hpr, hok⟩)
        | false =>
          constructor
          · intro hmem
            have hl : p ∈ l := by simpa using hmem
            have hhl := (ih l hr).mp hl
            exact ⟨List.mem_cons_of_mem _ hhl.1, hhl.2⟩
          · rintro ⟨hmem, hok⟩
            rcases List.mem_cons.mp hmem with rfl | hpr
            · rw [hq] at hok
              injection hok with hok
              exact absurd hok (by decide)
            · simpa using (ih l hr).mpr ⟨hpr, hok⟩

/-- C9 (amended): a persona is selectable (kept by the orgs filter)
exactly when its `system_info.is_organisation` entry is truthy; the
filter imposes nothing on `hash`. -/
theorem orgs_selectable_iff_truthy (ps res : List JValue)
    (h : orgsFilter ps = .ok res) (p : JValue) :
    p ∈ res ↔ p ∈ ps ∧ get_is_organisation p = .ok true :=
  orgsFilter_mem_iff ps res h p

/-- C9 witness: the filter keeps `personaNoHash` and the
characterization holds for it. -/
theorem orgs_selectable_iff_truthy_witness :
    orgsFilter [personaNoHash] = .ok [personaNoHash] ∧
    (personaNoHash ∈ [personaNoHash] ↔
      personaNoHash ∈ [personaNoHash] ∧
      get_is_organisation personaNoHash = .ok true) :=
  ⟨rfl, orgs_selectable_iff_truthy [personaNoHash] [personaNoHash] rfl
    personaNoHash⟩

/-- C9 counterexample: a persona whose `is_organisation` is the number
`1` (truthy, but not the boolean `true`) and which has no `hash` key at
all is selectable; extracting its hash at publish time raises
`KeyError`, so a selectable persona need not have a non-empty hash. -/
theorem selectable_persona_without_hash :
    orgsFilter [personaNoHash] = .ok [personaNoHash] ∧
    persona_hash_of personaNoHash = .error "KeyError" ∧
    get_is_organisation personaNoHash = .ok true ∧
    jlookup [("is_organisation", JValue.num 1)] "is_organisation" ≠
      some (JValue.bool true) := by
  refine ⟨rfl, rfl, rfl, fun h => ?_⟩
  injection h with h
  nomatch h

/-- C10 (amended): the orgs filter silently excludes (without error) a
record that lacks the `system_info` key, and a record whose
`system_info` is a mapping with an absent-or-falsy `is_organisation`
entry; but it is not total over arbitrary records — see the
counterexample for a record on which it raises. -/
theorem orgs_filter_silent_exclusion :
    (∀ fields, jlookup fields "system_info" = none →
      get_is_organisation (.obj fields) = .ok false) ∧
    (∀ fields sfields, jlookup fields "system_info" = some (.obj sfields) →
      truthy ((jlookup sfields "is_organisation").getD .null) = false →
      get_is_organisation (.obj fields) = .ok false) ∧
    (∀ p ps res, orgsFilter ps = .ok res →
      get_is_organisation p = .ok false → p ∉ res) := by
  refine ⟨fun fields h => ?_, fun fields sfields h ht => ?_,
    fun p ps res h hf hmem => ?_⟩
  · simp [get_is_organisation, h, jlookup, truthy]
  · simp [get_is_organisation, h, ht]
  · have hchar := (orgsFilter_mem_iff ps res h p).mp hmem
    rw [hchar.2] at hf
    injection hf with hf
    exact absurd hf (by decide)

/-- C10 witness: a record with no `system_info` key is excluded with a
normal `false`, not an error. -/
theorem orgs_filter_silent_exclusion_witness :
    jlookup [("name", JValue.str "x")] "system_info" = none ∧
    get_is_organisation (.obj [("name", JValue.str "x")]) = .ok false :=
  ⟨rfl, orgs_filter_silent_exclusion.1 [("name", JValue.str "x")] rfl⟩

/-- C10 counterexample: on a record whose `system_info` is a number the
filter raises (`5.get` has no meaning), so it is not total over
arbitrary persona records. -/
theorem orgs_filter_not_total :
    orgsFilter [personaBadSystemInfo] = .error "AttributeError" ∧
    get_is_organisation personaBadSystemInfo = .error "AttributeError" :=
  ⟨rfl, rfl⟩

/-- C3: the reference-data cache rules.  Two accessor calls with the
same credential, no forced refresh, and the second within the TTL of
the first perform at most one underlying fetch pair; a call on an entry
older than the TTL, a forced refresh, and a call after invalidation
(cleared entry) each perform a fresh fetch pair and replace the cached
entry with a new timestamp. -/
theorem cache_refresh_rules {α β : Type} (fetchP : String → α)
    (fetchT : String → β) (key : String) :
    (∀ entry t₁ t₂, t₂ - t₁ ≤ cacheTTL →
      ¬ ((getPersonasAndTeams fetchP fetchT entry key t₁ false).2.2 = true ∧
         (getPersonasAndTeams fetchP fetchT
            (getPersonasAndTeams fetchP fetchT entry key t₁ false).2.1
            key t₂ false).2.2 = true)) ∧
    (∀ e now, cacheTTL < now - e.fetchedAt →
      getPersonasAndTeams fetchP fetchT (some e) key now false =
        ((fetchP key, fetchT key),
         some { key := key, personas := fetchP key, teams := fetchT key,
                fetchedAt := now }, true)) ∧
    (∀ e now, getPersonasAndTeams fetchP fetchT (some e) key now true =
        ((fetchP key, fetchT key),
         some { key := key, personas := fetchP key, teams := fetchT key,
                fetchedAt := now }, true)) ∧
    (∀ now, getPersonasAndTeams fetchP fetchT none key now false =
        ((fetchP key, fetchT key),
         some { key := key, personas := fetchP key, teams := fetchT key,
                fetchedAt := now }, true)) := by
  refine ⟨fun entry t₁ t₂ hle => ?_, fun e now hstale => ?_,
    fun e now => ?_, fun now => ?_⟩
  · rintro ⟨h1, h2⟩
    cases entry with
    | none => simp [getPersonasAndTeams, hle] at h2
    | some e =>
      by_cases hc : e.key = key ∧ t₁ - e.fetchedAt ≤ cacheTTL
      · have h1f : (getPersonasAndTeams fetchP fetchT (some e) key t₁
            false).2.2 = false := by
          simp only [getPersonasAndTeams]
          split
          · rfl
          · rename_i hcon
            exact absurd ⟨by trivial, hc.1, hc.2⟩ hcon
        rw [h1f] at h1
        exact Bool.noConfusion h1
      · have hstate : (getPersonasAndTeams fetchP fetchT (some e) key t₁
            false).2.1 = some ⟨key, fetchP key, fetchT key, t₁⟩ := by
          simp only [getPersonasAndTeams]
          split
          · rename_i hcon
            exact absurd ⟨hcon.2.1, hcon.2.2⟩ hc
          · rfl
        rw [hstate] at h2
        have h2f : (getPersonasAndTeams fetchP fetchT
            (some (⟨key, fetchP key, fetchT key, t₁⟩ : RefEntry α β))
            key t₂ false).2.2 = false := by
          simp only [getPersonasAndTeams]
          split
          · rfl
          · rename_i hcon
            exact absurd ⟨by trivial, by trivial, hle⟩ hcon
        rw [h2f] at h2
        exact Bool.noConfusion h2
  · simp only [getPersonasAndTeams]
    split
    · rename_i hcon
      exact absurd hcon.2.2 (Nat.not_le.mpr hstale)
    · rfl
  · simp [getPersonasAndTeams]
  · rfl

/-- C3 witness: with a cleared cache, a call at time 0 fetches and a
second call at time 100 hits the cache; an entry fetched at time 0 is
stale at time 301 and is replaced. -/
theorem cache_refresh_rules_witness :
    ((100 : Nat) - 0 ≤ cacheTTL ∧
      ¬ ((getPersonasAndTeams (fun _ => (1 : Nat)) (fun _ => (2 : Nat))
            none "k" 0 false).2.2 = true ∧
         (getPersonasAndTeams (fun _ => (1 : Nat)) (fun _ => (2 : Nat))
            (getPersonasAndTeams (fun _ => (1 : Nat)) (fun _ => (2 : Nat))
              none "k" 0 false).2.1 "k" 100 false).2.2 = true)) ∧
    (cacheTTL < 301 - (0 : Nat) ∧
      getPersonasAndTeams (fun _ => (1 : Nat)) (fun _ => (2 : Nat))
        (some { key := "k", personas := 1, teams := 2, fetchedAt := 0 })
        "k" 301 false =
        ((1, 2), some { key := "k", personas := 1, teams := 2,
                        fetchedAt := 301 }, true)) := by
  have h := cache_refresh_rules (fun _ => (1 : Nat)) (fun _ => (2 : Nat)) "k"
  exact ⟨⟨by decide, h.1 none 0 100 (by decide)⟩,
    ⟨by decide, h.2.1 ⟨"k", 1, 2, 0⟩ 301 (by decide)⟩⟩

end Eagle
